import Mathlib

/-!
Verification of the authentication / session / audit core of the
vnpt_talent_hub backend (FastAPI + SQLAlchemy), shallowly embedded in Lean 4.

Conventions of the embedding:
* timezone-aware datetimes are modelled as integers on a common epoch scale
  (`Time`); only their order matters to the verified code;
* database tables are lists of records; SQLAlchemy `db.commit()` points are
  modelled explicitly where a claim depends on transaction boundaries;
* Python exceptions that the endpoint code does not catch are modelled as a
  distinguished `pyError` outcome (an HTTP 500, not a handled response);
* HTTP error responses carry their status code and their `detail` string
  exactly as written in the source.
-/

namespace VnptTalentHub

/-- Timezone-aware datetimes, abstracted to an integer epoch scale. -/
abbrev Time := Int

/-! ## Credential verifier — src/app/core/security.py

`get_password_hash` / `verify_password` delegate to passlib's
`CryptContext(schemes=["bcrypt"])`.  The bcrypt digest itself is abstracted as
an injective tagged encoding (no claim depends on its cryptographic
properties); what the claims do depend on is passlib's documented behaviour:
`CryptContext.verify` raises `UnknownHashError` when the hash string cannot be
identified as belonging to a configured scheme, and
`verify_password` in src/app/core/security.py (lines 32-43) does not catch it.
-/

/-- Model of passlib bcrypt hashing: an identifiable `$2b$` prefixed digest.
The digest body abstracts the bcrypt computation as a tagged copy of the
password, which is enough because no claim concerns bcrypt itself. -/
def get_password_hash (password : String) : String :=
  "$2b$12$" ++ password

/-- Model of the bcrypt comparison performed by passlib for an identifiable
hash: the stored digest matches iff it is the digest of the plaintext. -/
def bcryptCheck (plain hashed : String) : Bool :=
  hashed == get_password_hash plain

/-- Character-level model of Python's `str.startswith` (also used below for
SQL `LIKE 'p%'` patterns), kept kernel-evaluable. -/
def strStartsWith (s p : String) : Bool :=
  s.data.take p.data.length == p.data

/-- Model of passlib hash identification: a hash string is identifiable iff it
carries the bcrypt tag. -/
def identifyHash (hashed : String) : Bool :=
  strStartsWith hashed "$2b$"

/-- Model of `CryptContext.verify`: verifies identifiable hashes, raises
`UnknownHashError` (modelled as `Except.error`) on unidentifiable input. -/
def pwdContextVerify (plain hashed : String) : Except String Bool :=
  if identifyHash hashed then Except.ok (bcryptCheck plain hashed)
  else Except.error "UnknownHashError"

/-- `verify_password` from src/app/core/security.py lines 32-43: a bare
delegation to `pwd_context.verify`, with no exception handling. -/
def verify_password (plain_password hashed_password : String) : Except String Bool :=
  pwdContextVerify plain_password hashed_password

/-! ## Refresh token model — src/app/models/refresh_token.py -/

/-- A row of the `refresh_tokens` table. -/
structure RefreshToken where
  id : Nat
  user_id : Nat
  token : String
  expires_at : Time
  is_revoked : Bool
deriving Repr, DecidableEq

/-- `RefreshToken.is_valid` from src/app/models/refresh_token.py lines 64-75:
revoked tokens are invalid; then `expires_at < now` is invalid; otherwise
valid.  `now` stands for `datetime.now(timezone.utc)`. -/
def RefreshToken.is_valid (r : RefreshToken) (now : Time) : Bool :=
  if r.is_revoked then false
  else if r.expires_at < now then false
  else true

/-- `RefreshToken.revoke` from src/app/models/refresh_token.py lines 77-79. -/
def RefreshToken.revoke (r : RefreshToken) : RefreshToken :=
  { r with is_revoked := true }

/-- Definition following the spec's words (§4.3, token-level part): valid iff
`revoked == false` and `expires_at > now`.  Kept separate from the source
embedding `RefreshToken.is_valid` for comparison. -/
def specRefreshTokenValid (r : RefreshToken) (now : Time) : Bool :=
  !r.is_revoked && decide (now < r.expires_at)

/-! ### C3 -/

/-- C3 counterexample: a non-revoked token whose `expires_at` equals the
current time.  The code's `is_valid` accepts it, while the claim
("valid iff expires_at > now; equality is invalid") rejects it. -/
theorem C3_counterexample :
    RefreshToken.is_valid ⟨1, 1, "tok", 100, false⟩ 100 = true
    ∧ specRefreshTokenValid ⟨1, 1, "tok", 100, false⟩ 100 = false := by
  constructor <;> rfl

/-- C3 amended: `RefreshToken.is_valid` returns true iff the record is not
revoked and `expires_at ≥ now`; in particular a token whose `expires_at`
equals the current time is still valid. -/
theorem C3_is_valid_characterisation (r : RefreshToken) (now : Time) :
    r.is_valid now = (!r.is_revoked && decide (now ≤ r.expires_at)) := by
  unfold RefreshToken.is_valid
  by_cases hrev : r.is_revoked
  · simp [hrev]
  · by_cases hexp : now ≤ r.expires_at
    · have h2 : ¬ (r.expires_at < now) := not_lt.mpr hexp
      simp [hrev, hexp, h2]
    · have h2 : r.expires_at < now := not_le.mp hexp
      simp [hrev, hexp, h2]

/-! ### C4 -/

/-- C4 counterexample: on a hash string passlib cannot identify,
`verify_password` propagates `UnknownHashError` instead of returning false —
the claim's "returns a boolean and never raises" fails. -/
theorem C4_counterexample :
    identifyHash "not-a-bcrypt-hash" = false
    ∧ verify_password "pw" "not-a-bcrypt-hash" = Except.error "UnknownHashError" := by
  have h : identifyHash "not-a-bcrypt-hash" = false := by decide
  refine ⟨h, ?_⟩
  unfold verify_password pwdContextVerify
  rw [h]
  rfl

/-- C4 amended: `verify_password` returns a boolean exactly for identifiable
(well-formed) hash strings; for a malformed hash string the call raises
passlib's `UnknownHashError` (it is not caught), rather than returning
false. -/
theorem C4_verify_password_behaviour (plain hashed : String) :
    ((∃ b, verify_password plain hashed = Except.ok b) ↔ identifyHash hashed = true)
    ∧ (verify_password plain hashed = Except.error "UnknownHashError"
        ↔ identifyHash hashed = false) := by
  unfold verify_password pwdContextVerify
  cases h : identifyHash hashed <;> simp [h]

/-! ## Rate limiter — src/app/core/rate_limit.py, in-memory branch

`make_rate_limiter(times, seconds)` returns a dependency that keys the
in-memory store `_memory_store` by `f"{ip}:{route}"` and runs, under a lock:
read `(count, reset_ts)` with default `(0, now + seconds)`; if `now >
reset_ts` reset to `(0, now + seconds)`; increment; write back; deny with 429
and the remaining window time when `count > times`.  `time.time()` values are
modelled on the integer `Time` scale (only comparisons and differences are
used). -/

/-- One value of `_memory_store`: request count and window reset timestamp. -/
structure RateState where
  count : Nat
  reset_ts : Time
deriving Repr, DecidableEq

/-- The `_memory_store` dict, keyed by `f"{ip}:{route}"`. -/
abbrev RateStore := List (String × RateState)

/-- `_memory_store.get(key, (0, now + seconds))`. -/
def storeGet : RateStore → String → RateState → RateState
  | [], _, dflt => dflt
  | p :: ps, k, dflt => if p.1 == k then p.2 else storeGet ps k dflt

/-- `_memory_store[key] = (count, reset_ts)`: replace or insert. -/
def storeSet : RateStore → String → RateState → RateStore
  | [], k, v => [(k, v)]
  | p :: ps, k, v => if p.1 == k then (k, v) :: ps else p :: storeSet ps k v

/-- Outcome of the rate-limit dependency: pass, or an HTTP 429 carrying the
remaining window time (`int(reset_ts - now)` seconds). -/
inductive RateOutcome
  | allow
  | deny (retry_after : Int)
deriving Repr, DecidableEq

/-- The store key `f"{ip}:{route}"` built in the dependency. -/
def rateKey (ip route : String) : String :=
  ip ++ ":" ++ route

/-- One invocation of the dependency returned by `make_rate_limiter`
(src/app/core/rate_limit.py lines 56-79, in-memory branch). -/
def rateLimitCheck (times : Nat) (seconds : Int) (store : RateStore) (key : String)
    (now : Time) : RateStore × RateOutcome :=
  let st0 := storeGet store key ⟨0, now + seconds⟩
  let st1 := if st0.reset_ts < now then ({ count := 0, reset_ts := now + seconds } : RateState)
             else st0
  let st2 : RateState := { st1 with count := st1.count + 1 }
  let store2 := storeSet store key st2
  if times < st2.count then (store2, RateOutcome.deny (st2.reset_ts - now))
  else (store2, RateOutcome.allow)

/-- A sequence of invocations for one key, returning the final store and the
outcome of every request in order. -/
def rateLimitRun (times : Nat) (seconds : Int) (store : RateStore) (key : String) :
    List Time → RateStore × List RateOutcome
  | [] => (store, [])
  | t :: ts =>
    let r1 := rateLimitCheck times seconds store key t
    let r2 := rateLimitRun times seconds r1.1 key ts
    (r2.1, r1.2 :: r2.2)

/-- Helper: starting from a store holding `(count, reset_ts) = (c, R)` for the
key, requests at times not past `R` are all allowed and only bump the counter,
as long as the counter stays within the threshold. -/
theorem rateLimitRun_allows_within (times : Nat) (seconds : Int) (k : String) (R : Time)
    (c : Nat) (ts : List Time)
    (hts : ∀ t ∈ ts, ¬ (R < t)) (hc : c + ts.length ≤ times) :
    rateLimitRun times seconds [(k, ⟨c, R⟩)] k ts
      = ([(k, ⟨c + ts.length, R⟩)], ts.map (fun _ => RateOutcome.allow)) := by
  induction ts generalizing c with
  | nil => simp [rateLimitRun]
  | cons t ts ih =>
    have hR : ¬ (R < t) := hts t (by simp)
    have hcount : ¬ (times < c + 1) := by
      simp only [List.length_cons] at hc
      omega
    have hstep : rateLimitCheck times seconds [(k, ⟨c, R⟩)] k t
        = ([(k, ⟨c + 1, R⟩)], RateOutcome.allow) := by
      simp [rateLimitCheck, storeGet, storeSet, hR, hcount]
    have hts2 : ∀ t2 ∈ ts, ¬ (R < t2) := fun t2 ht2 => hts t2 (by simp [ht2])
    have hc2 : (c + 1) + ts.length ≤ times := by
      simp only [List.length_cons] at hc
      omega
    have harith : c + 1 + ts.length = c + (ts.length + 1) := by omega
    simp only [rateLimitRun, hstep, ih (c + 1) hts2 hc2, List.map_cons, List.length_cons,
      harith]

/-- C7: the in-memory fixed-window limiter with threshold `N` per window `W`,
for a fresh (caller IP, route) key: the first `N` requests within the window
are all allowed; an `(N+1)`-th request still within the window is denied with
the remaining window time; and a request after the window's reset timestamp
has passed is allowed again (the counter resets entirely). -/
theorem C7_rate_limiter_window (N : Nat) (W : Int) (k : String)
    (t0 tDeny tAfter : Time) (ts : List Time)
    (hN : 1 ≤ N) (hW : 0 < W)
    (hlen : ts.length = N - 1)
    (hts : ∀ t ∈ ts, t ≤ t0 + W)
    (hDeny : tDeny ≤ t0 + W)
    (hAfter : t0 + W < tAfter) :
    (rateLimitRun N W [] k (t0 :: ts)).2 = (t0 :: ts).map (fun _ => RateOutcome.allow)
    ∧ (rateLimitCheck N W (rateLimitRun N W [] k (t0 :: ts)).1 k tDeny).2
        = RateOutcome.deny (t0 + W - tDeny)
    ∧ (rateLimitCheck N W
        (rateLimitCheck N W (rateLimitRun N W [] k (t0 :: ts)).1 k tDeny).1 k tAfter).2
        = RateOutcome.allow := by
  have hfirstReset : ¬ (t0 + W < t0) := not_lt.mpr (le_add_of_nonneg_right hW.le)
  have hfirstCount : ¬ (N < 0 + 1) := by omega
  have hfirst : rateLimitCheck N W [] k t0 = ([(k, ⟨1, t0 + W⟩)], RateOutcome.allow) := by
    simp [rateLimitCheck, storeGet, storeSet, hfirstReset, hfirstCount]
  have hts2 : ∀ t ∈ ts, ¬ (t0 + W < t) := fun t ht => not_lt.mpr (hts t ht)
  have hc2 : 1 + ts.length ≤ N := by omega
  have hrest := rateLimitRun_allows_within N W k (t0 + W) 1 ts hts2 hc2
  have hfull : rateLimitRun N W [] k (t0 :: ts)
      = ([(k, ⟨1 + ts.length, t0 + W⟩)], RateOutcome.allow :: ts.map (fun _ => RateOutcome.allow)) := by
    simp only [rateLimitRun, hfirst, hrest]
  have hNfull : 1 + ts.length = N := by omega
  have hDenyReset : ¬ (t0 + W < tDeny) := not_lt.mpr hDeny
  have hDenyCount : N < N + 1 := by omega
  have hdeny : rateLimitCheck N W [(k, ⟨N, t0 + W⟩)] k tDeny
      = ([(k, ⟨N + 1, t0 + W⟩)], RateOutcome.deny (t0 + W - tDeny)) := by
    simp [rateLimitCheck, storeGet, storeSet, hDenyReset, hDenyCount]
  have hAfterCount : ¬ (N < 0 + 1) := by omega
  have hafter : rateLimitCheck N W [(k, ⟨N + 1, t0 + W⟩)] k tAfter
      = ([(k, ⟨1, tAfter + W⟩)], RateOutcome.allow) := by
    simp [rateLimitCheck, storeGet, storeSet, hAfter, hAfterCount]
  refine ⟨?_, ?_, ?_⟩
  · rw [hfull]
    simp [List.map_cons]
  · rw [hfull]
    simp only [hNfull, hdeny]
  · rw [hfull]
    simp only [hNfull, hdeny, hafter]

/-- C7 witness: threshold 5 per 60 s on the login route (the configured
default): from a fresh key, requests at times 0 and 10 with threshold 2 are
allowed, a third at 20 is denied with 40 s remaining, and one at 100 (after
the reset timestamp 60) is allowed again. -/
theorem C7_rate_limiter_window_witness :
    (rateLimitRun 2 60 [] (rateKey "1.2.3.4" "/api/v1/auth/login") [0, 10]).2
      = [RateOutcome.allow, RateOutcome.allow]
    ∧ (rateLimitCheck 2 60
        (rateLimitRun 2 60 [] (rateKey "1.2.3.4" "/api/v1/auth/login") [0, 10]).1
        (rateKey "1.2.3.4" "/api/v1/auth/login") 20).2 = RateOutcome.deny 40
    ∧ (rateLimitCheck 2 60
        (rateLimitCheck 2 60
          (rateLimitRun 2 60 [] (rateKey "1.2.3.4" "/api/v1/auth/login") [0, 10]).1
          (rateKey "1.2.3.4" "/api/v1/auth/login") 20).1
        (rateKey "1.2.3.4" "/api/v1/auth/login") 100).2 = RateOutcome.allow := by
  have h := C7_rate_limiter_window 2 60 (rateKey "1.2.3.4" "/api/v1/auth/login")
    0 20 100 [10] (by decide) (by decide) (by decide)
    (by intro t ht; simp at ht; simp [ht]) (by decide) (by decide)
  simpa using h

/-! ## Data model — src/app/models/user.py, audit_log.py,
email_verification_token.py, and the audit service
src/app/services/audit_service.py -/

/-- A row of the `users` table (src/app/models/user.py). -/
structure User where
  id : Nat
  email : String
  hashed_password : String
  full_name : String
  role : String
  is_active : Bool
  is_verified : Bool
  last_login_at : Option Time
deriving Repr, DecidableEq

/-- A JSON value stored in an audit `details` map (only strings and booleans
occur in the flows verified here). -/
inductive DetailVal
  | s (v : String)
  | b (v : Bool)
deriving Repr, DecidableEq

/-- The `details` JSON map of an audit entry, as ordered key-value pairs. -/
abbrev Details := List (String × DetailVal)

/-- A row of the `audit_logs` table (src/app/models/audit_log.py). -/
structure AuditLog where
  id : Nat
  timestamp : Time
  user_id : Option Nat
  action : String
  target_type : Option String
  target_id : Option Nat
  details : Details
deriving Repr, DecidableEq

/-- `AuditAction` constants (src/app/models/audit_log.py lines 98-118). -/
def AuditAction.LOGIN_SUCCESS : String := "auth.login.success"

def AuditAction.LOGIN_FAILURE : String := "auth.login.failure"

def AuditAction.TOKEN_REFRESH : String := "auth.token.refresh"

/-- A row of the `email_verification_tokens` table
(src/app/models/email_verification_token.py). -/
structure EmailVerificationToken where
  id : Nat
  user_id : Nat
  token : String
  expires_at : Time
  consumed : Bool
deriving Repr, DecidableEq

/-- The persistent store touched by the authentication core. -/
structure Db where
  users : List User
  refresh_tokens : List RefreshToken
  audit_logs : List AuditLog
  email_tokens : List EmailVerificationToken
deriving Repr, DecidableEq

/-- The request metadata consulted by the audit helpers. -/
structure Req where
  x_forwarded_for : Option String
  x_real_ip : Option String
  client_host : Option String
  user_agent : Option String
deriving Repr, DecidableEq

/-- `get_client_ip` (src/app/services/audit_service.py lines 197-221):
X-Forwarded-For first hop, then X-Real-IP, then the direct peer; an absent or
empty header is falsy in the Python conditionals. -/
def get_client_ip (r : Req) : String :=
  let forwarded := r.x_forwarded_for.getD ""
  if forwarded != "" then ((forwarded.splitOn ",").headD "").trim
  else
    let real_ip := r.x_real_ip.getD ""
    if real_ip != "" then real_ip
    else r.client_host.getD "Unknown"

/-- `log_event` (src/app/services/audit_service.py lines 38-103): append one
immutable entry and commit.  The surrogate primary key is the next counter
value. -/
def log_event (db : Db) (now : Time) (action : String) (actor_id : Option Nat)
    (target_type : Option String) (target_id : Option Nat) (details : Details) : Db :=
  { db with audit_logs := db.audit_logs ++
      [⟨db.audit_logs.length + 1, now, actor_id, action, target_type, target_id, details⟩] }

/-- `log_auth_event` (src/app/services/audit_service.py lines 106-148): builds
the details map `{email, ip, user_agent, success}` updated with the extra
details, then delegates to `log_event` with no target. -/
def log_auth_event (db : Db) (now : Time) (action : String) (user_id : Option Nat)
    (email : String) (req : Req) (success : Bool) (extra : Details) : Db :=
  let event_details : Details :=
    [("email", DetailVal.s email), ("ip", DetailVal.s (get_client_ip req)),
     ("user_agent", DetailVal.s (req.user_agent.getD "Unknown")),
     ("success", DetailVal.b success)] ++ extra
  log_event db now action user_id none none event_details

/-- `log_login_failure` (src/app/services/audit_service.py lines 251-261):
anonymous actor, `success=False`, reason "Invalid credentials". -/
def log_login_failure (db : Db) (now : Time) (email : String) (req : Req) : Db :=
  log_auth_event db now AuditAction.LOGIN_FAILURE none email req false
    [("reason", DetailVal.s "Invalid credentials")]

/-- `log_login_success` (src/app/services/audit_service.py lines 239-248). -/
def log_login_success (db : Db) (now : Time) (user_id : Nat) (email : String)
    (req : Req) : Db :=
  log_auth_event db now AuditAction.LOGIN_SUCCESS (some user_id) email req true []

/-- `log_token_refresh` (src/app/services/audit_service.py lines 275-283). -/
def log_token_refresh (db : Db) (now : Time) (user_id : Nat) (email : String)
    (req : Req) : Db :=
  log_auth_event db now AuditAction.TOKEN_REFRESH (some user_id) email req true []

/-! ## Login endpoint — src/app/api/auth.py lines 76-147 -/

/-- Configured defaults (src/app/core/security.py lines 22-23). -/
def ACCESS_TOKEN_EXPIRE_MINUTES : Int := 15

/-- Default refresh TTL in days (src/app/core/security.py line 23). -/
def REFRESH_TOKEN_EXPIRE_DAYS : Int := 7

/-- `create_access_token` (src/app/core/security.py lines 59-79), abstracted
to a tagged encoding of the claims it signs; no verified claim depends on the
JWT wire format. -/
def create_access_token (sub role : String) (expire : Time) : String :=
  "jwt.access." ++ sub ++ "." ++ role ++ "." ++ toString expire

/-- The user lookup `db.query(User).filter(User.email == ...).first()`. -/
def findUserByEmail (db : Db) (email : String) : Option User :=
  db.users.find? (fun u => u.email == email)

/-- Outcome of the login endpoint: a token response, a handled HTTP error, or
an uncaught Python exception (HTTP 500). -/
inductive LoginResult
  | ok (access_token : String) (token_type : String)
  | httpError (status : Nat) (detail : String)
  | pyError (msg : String)
deriving Repr, DecidableEq

/-- Final state and response of one login request. -/
structure LoginRun where
  db : Db
  result : LoginResult
deriving Repr, DecidableEq

/-- Surrogate primary key for a new `refresh_tokens` row. -/
def nextRefreshId (db : Db) : Nat := db.refresh_tokens.length + 1

/-- The `/auth/login` endpoint body (src/app/api/auth.py lines 76-147), after
the rate-limit gate: look up the account by email; on missing account or
failed password verification, record `auth.login.failure` and fail 401 with
the uniform message; on an inactive account fail 403 before any write; on
success update `last_login_at`, mint the access token, persist a new refresh
token with expiry `now + 7 days`, and record `auth.login.success`.
`new_refresh_token_string` stands for the `generate_refresh_token_string()`
UUID. -/
def login (db : Db) (username password : String) (req : Req) (now : Time)
    (new_refresh_token_string : String) : LoginRun :=
  match findUserByEmail db username with
  | none =>
    ⟨log_login_failure db now username req,
      LoginResult.httpError 401 "Incorrect email or password"⟩
  | some user =>
    match verify_password password user.hashed_password with
    | Except.error e => ⟨db, LoginResult.pyError e⟩
    | Except.ok matched =>
      if !matched then
        ⟨log_login_failure db now username req,
          LoginResult.httpError 401 "Incorrect email or password"⟩
      else if !user.is_active then
        ⟨db, LoginResult.httpError 403 "Inactive user"⟩
      else
        let updatedUsers := db.users.map
          (fun u => if u.id == user.id then { u with last_login_at := some now } else u)
        let db1 := { db with users := updatedUsers }
        let access := create_access_token user.email user.role
          (now + ACCESS_TOKEN_EXPIRE_MINUTES * 60)
        let rt : RefreshToken := ⟨nextRefreshId db1, user.id, new_refresh_token_string,
          now + REFRESH_TOKEN_EXPIRE_DAYS * 24 * 60 * 60, false⟩
        let db2 := { db1 with refresh_tokens := db1.refresh_tokens ++ [rt] }
        let db3 := log_login_success db2 now user.id user.email req
        ⟨db3, LoginResult.ok access "bearer"⟩

/-- Invalid credentials in the sense of the 401 branch of `/auth/login`: the
email is unknown, or the stored (well-formed) hash does not match. -/
def credInvalid (db : Db) (username password : String) : Bool :=
  match findUserByEmail db username with
  | none => true
  | some u => identifyHash u.hashed_password && !(bcryptCheck password u.hashed_password)

/-- `log_login_failure` appends exactly one anonymous `auth.login.failure`
entry carrying the attempted email, and touches nothing else. -/
theorem log_login_failure_spec (db : Db) (now : Time) (email : String) (req : Req) :
    ∃ e, (log_login_failure db now email req).audit_logs = db.audit_logs ++ [e]
      ∧ e.user_id = none
      ∧ e.action = AuditAction.LOGIN_FAILURE
      ∧ ("email", DetailVal.s email) ∈ e.details
      ∧ (log_login_failure db now email req).users = db.users
      ∧ (log_login_failure db now email req).refresh_tokens = db.refresh_tokens := by
  refine ⟨_, rfl, rfl, rfl, ?_, rfl, rfl⟩
  simp [log_login_failure, log_auth_event, log_event]

/-- A request with no proxy headers and a direct peer, used in concrete
scenarios. -/
def reqEx : Req := ⟨none, none, some "1.2.3.4", some "TestUA"⟩

/-- A store holding a single inactive account whose password is "pw". -/
def dbC5 : Db :=
  { users := [⟨1, "bob@x.com", get_password_hash "pw", "Bob", "employee", false, false, none⟩]
  , refresh_tokens := []
  , audit_logs := []
  , email_tokens := [] }

/-! ### C5 -/

/-- C5 counterexample: the credential pair ("bob@x.com", "pw") does not match
an active account (the only matching account is inactive), yet `/auth/login`
answers 403 "Inactive user" — not the uniform 401 — and records no audit
event at all. -/
theorem C5_counterexample :
    dbC5.users.all
      (fun u => !(u.email == "bob@x.com" && bcryptCheck "pw" u.hashed_password
        && u.is_active)) = true
    ∧ (login dbC5 "bob@x.com" "pw" reqEx 1000 "rt1").result
        = LoginResult.httpError 403 "Inactive user"
    ∧ (login dbC5 "bob@x.com" "pw" reqEx 1000 "rt1").db.audit_logs = dbC5.audit_logs := by
  refine ⟨by decide, by decide, by decide⟩

/-- C5 amended: for every credential pair that matches no account at all —
unknown email, or a password failing verification against the account's
(well-formed) stored hash — `/auth/login` fails with the single uniform 401
"Incorrect email or password", creates no token and changes no user row, and
appends exactly one `auth.login.failure` audit entry with a null actor whose
details carry the attempted email.  (A correct password for an inactive
account instead yields 403 with no audit event; see the counterexample.) -/
theorem C5_login_failure_uniform (db : Db) (username password : String) (req : Req)
    (now : Time) (nts : String)
    (hcred : credInvalid db username password = true) :
    (login db username password req now nts).result
        = LoginResult.httpError 401 "Incorrect email or password"
    ∧ (login db username password req now nts).db.users = db.users
    ∧ (login db username password req now nts).db.refresh_tokens = db.refresh_tokens
    ∧ ∃ e, (login db username password req now nts).db.audit_logs = db.audit_logs ++ [e]
        ∧ e.user_id = none
        ∧ e.action = AuditAction.LOGIN_FAILURE
        ∧ ("email", DetailVal.s username) ∈ e.details := by
  unfold credInvalid at hcred
  have hfail : ∀ db2 : Db, db2 = log_login_failure db now username req →
      (⟨db2, LoginResult.httpError 401 "Incorrect email or password"⟩ : LoginRun).result
          = LoginResult.httpError 401 "Incorrect email or password"
      ∧ (⟨db2, LoginResult.httpError 401 "Incorrect email or password"⟩ : LoginRun).db.users
          = db.users
      ∧ (⟨db2, LoginResult.httpError 401 "Incorrect email or password"⟩ :
          LoginRun).db.refresh_tokens = db.refresh_tokens
      ∧ ∃ e, (⟨db2, LoginResult.httpError 401 "Incorrect email or password"⟩ :
            LoginRun).db.audit_logs = db.audit_logs ++ [e]
          ∧ e.user_id = none
          ∧ e.action = AuditAction.LOGIN_FAILURE
          ∧ ("email", DetailVal.s username) ∈ e.details := by
    intro db2 hdb2
    obtain ⟨e, he1, he2, he3, he4, he5, he6⟩ := log_login_failure_spec db now username req
    subst hdb2
    exact ⟨rfl, he5, he6, e, he1, he2, he3, he4⟩
  cases h : findUserByEmail db username with
  | none =>
    have hl : login db username password req now nts
        = ⟨log_login_failure db now username req,
            LoginResult.httpError 401 "Incorrect email or password"⟩ := by
      unfold login
      rw [h]
    rw [hl]
    exact hfail _ rfl
  | some u =>
    rw [h] at hcred
    simp only [Bool.and_eq_true, Bool.not_eq_true'] at hcred
    obtain ⟨hid, hbc⟩ := hcred
    have hv : verify_password password u.hashed_password = Except.ok false := by
      unfold verify_password pwdContextVerify
      rw [hid, hbc]
      rfl
    have hl : login db username password req now nts
        = ⟨log_login_failure db now username req,
            LoginResult.httpError 401 "Incorrect email or password"⟩ := by
      unfold login
      simp only [h]
      simp only [hv]
      simp
    rw [hl]
    exact hfail _ rfl

/-- C5 witness: with an empty user store, a login attempt fails 401 with the
uniform message, leaves users and refresh tokens unchanged, and appends one
anonymous failure event carrying the attempted email. -/
theorem C5_login_failure_uniform_witness :
    (login ⟨[], [], [], []⟩ "eve@x.com" "guess" reqEx 1000 "rt1").result
        = LoginResult.httpError 401 "Incorrect email or password"
    ∧ (login ⟨[], [], [], []⟩ "eve@x.com" "guess" reqEx 1000 "rt1").db.users = []
    ∧ (login ⟨[], [], [], []⟩ "eve@x.com" "guess" reqEx 1000 "rt1").db.refresh_tokens = []
    ∧ ∃ e, (login ⟨[], [], [], []⟩ "eve@x.com" "guess" reqEx 1000 "rt1").db.audit_logs
          = [] ++ [e]
        ∧ e.user_id = none
        ∧ e.action = AuditAction.LOGIN_FAILURE
        ∧ ("email", DetailVal.s "eve@x.com") ∈ e.details :=
  C5_login_failure_uniform ⟨[], [], [], []⟩ "eve@x.com" "guess" reqEx 1000 "rt1" (by decide)

/-! ### C10 -/

/-- C10: presenting the correct password of an existing but inactive account
returns 403 "Inactive user" and leaves the entire store unchanged: no audit
event, no `last_login_at` update, no access or refresh token. -/
theorem C10_inactive_login_is_pure (db : Db) (username password : String)
    (req : Req) (now : Time) (nts : String) (u : User)
    (hu : findUserByEmail db username = some u)
    (hid : identifyHash u.hashed_password = true)
    (hbc : bcryptCheck password u.hashed_password = true)
    (hin : u.is_active = false) :
    (login db username password req now nts).result
        = LoginResult.httpError 403 "Inactive user"
    ∧ (login db username password req now nts).db = db := by
  have hv : verify_password password u.hashed_password = Except.ok true := by
    unfold verify_password pwdContextVerify
    rw [hid, hbc]
    rfl
  have hl : login db username password req now nts
      = ⟨db, LoginResult.httpError 403 "Inactive user"⟩ := by
    unfold login
    simp only [hu]
    simp only [hv]
    simp [hin]
  rw [hl]
  exact ⟨rfl, rfl⟩

/-- C10 witness: the inactive account "bob@x.com" with its correct password
"pw" gets 403 and the store is untouched. -/
theorem C10_inactive_login_is_pure_witness :
    (login dbC5 "bob@x.com" "pw" reqEx 1000 "rt1").result
        = LoginResult.httpError 403 "Inactive user"
    ∧ (login dbC5 "bob@x.com" "pw" reqEx 1000 "rt1").db = dbC5 :=
  C10_inactive_login_is_pure dbC5 "bob@x.com" "pw" reqEx 1000 "rt1"
    ⟨1, "bob@x.com", get_password_hash "pw", "Bob", "employee", false, false, none⟩
    (by decide) (by decide) (by decide) (by decide)

/-! ## Refresh endpoint — src/app/api/auth.py lines 280-366

The endpoint commits three times on the happy path: once after
`token_record.revoke()` (line 329), once after adding the new refresh token
(line 348), and once inside `log_event` for the `auth.token.refresh` entry.
`commits` records the externally observable database state after each
`db.commit()`, in order. -/

/-- Revoking the ORM object returned by the token lookup: flips `is_revoked`
on the first record whose token string matches (the row `find?` returned). -/
def revokeFoundToken : List RefreshToken → String → List RefreshToken
  | [], _ => []
  | r :: rs, tok => if r.token == tok then r.revoke :: rs else r :: revokeFoundToken rs tok

/-- Response of `/auth/refresh`: new access token plus the rotated cookie
value, or a handled HTTP error. -/
inductive RefreshResult
  | ok (access_token : String) (new_cookie : String)
  | httpError (status : Nat) (detail : String)
deriving Repr, DecidableEq

/-- One run of `/auth/refresh`: committed states in order, final state,
response. -/
structure RefreshRun where
  commits : List Db
  db : Db
  result : RefreshResult
deriving Repr, DecidableEq

/-- The `/auth/refresh` endpoint body (src/app/api/auth.py lines 280-366). -/
def refresh_access_token (db : Db) (cookie : Option String) (req : Req) (now : Time)
    (new_token_string : String) : RefreshRun :=
  match cookie with
  | none => ⟨[], db, RefreshResult.httpError 401 "Refresh token not found"⟩
  | some tok =>
    match db.refresh_tokens.find? (fun r => r.token == tok) with
    | none => ⟨[], db, RefreshResult.httpError 401 "Invalid refresh token"⟩
    | some token_record =>
      if !(token_record.is_valid now) then
        ⟨[], db, RefreshResult.httpError 401 "Refresh token expired or revoked"⟩
      else
        match db.users.find? (fun u => u.id == token_record.user_id) with
        | none => ⟨[], db, RefreshResult.httpError 401 "User not found or inactive"⟩
        | some user =>
          if !user.is_active then
            ⟨[], db, RefreshResult.httpError 401 "User not found or inactive"⟩
          else
            let db1 := { db with refresh_tokens := revokeFoundToken db.refresh_tokens tok }
            let access := create_access_token user.email user.role
              (now + ACCESS_TOKEN_EXPIRE_MINUTES * 60)
            let newRec : RefreshToken := ⟨nextRefreshId db1, user.id, new_token_string,
              now + REFRESH_TOKEN_EXPIRE_DAYS * 24 * 60 * 60, false⟩
            let db2 := { db1 with refresh_tokens := db1.refresh_tokens ++ [newRec] }
            let db3 := log_token_refresh db2 now user.id user.email req
            ⟨[db1, db2, db3], db3, RefreshResult.ok access new_token_string⟩

/-- Some record with this token string exists in the state. -/
def tokenPresentIn (db : Db) (tok : String) : Bool :=
  db.refresh_tokens.any (fun r => r.token == tok)

/-- Some record with this token string is revoked in the state. -/
def tokenRevokedIn (db : Db) (tok : String) : Bool :=
  db.refresh_tokens.any (fun r => r.token == tok && r.is_revoked)

/-- Some record with this token string is valid (non-revoked, non-expired) in
the state. -/
def tokenValidIn (db : Db) (tok : String) (now : Time) : Bool :=
  db.refresh_tokens.any (fun r => r.token == tok && r.is_valid now)

/-- Consecutive pairs of a state sequence: the transitions between observable
states. -/
def consecutivePairs : List Db → List (Db × Db)
  | [] => []
  | [_] => []
  | s :: s2 :: rest => (s, s2) :: consecutivePairs (s2 :: rest)

/-- Some single transition (transaction) both revokes the presented token and
makes its successor appear — the "same transaction boundary" shape the claim
asserts. -/
def rotationAtomic (states : List Db) (oldTok newTok : String) : Bool :=
  (consecutivePairs states).any (fun p =>
    (!(tokenRevokedIn p.1 oldTok) && tokenRevokedIn p.2 oldTok)
    && (!(tokenPresentIn p.1 newTok) && tokenPresentIn p.2 newTok))

/-- Revoking the looked-up record does not change which token strings are
present. -/
theorem revokeFoundToken_any_token (rs : List RefreshToken) (tok t2 : String) :
    (revokeFoundToken rs tok).any (fun r => r.token == t2)
      = rs.any (fun r => r.token == t2) := by
  induction rs with
  | nil => rfl
  | cons r rs ih =>
    by_cases hr : (r.token == tok) = true
    · simp [revokeFoundToken, hr, RefreshToken.revoke]
    · simp only [revokeFoundToken, hr, if_false, Bool.if_false_left]
      simp [ih]

/-- If at most one stored record carries the token string, revoking the
looked-up record leaves no valid record with that string. -/
theorem revokeFoundToken_kills (rs : List RefreshToken) (tok : String) (now : Time)
    (hcount : rs.countP (fun r => r.token == tok) ≤ 1) :
    (revokeFoundToken rs tok).any (fun r => r.token == tok && r.is_valid now) = false := by
  induction rs with
  | nil => rfl
  | cons r rs ih =>
    by_cases hr : (r.token == tok) = true
    · have hzero : rs.countP (fun r => r.token == tok) = 0 := by
        rw [List.countP_cons] at hcount
        rw [if_pos hr] at hcount
        omega
      have hnone : ∀ r2 ∈ rs, ¬ ((r2.token == tok) = true) := by
        intro r2 hr2
        exact (List.countP_eq_zero.mp hzero) r2 hr2
      have htail : rs.any (fun r => r.token == tok && r.is_valid now) = false := by
        rw [List.any_eq_false]
        intro r2 hr2
        simp [hnone r2 hr2]
      have hhead : ((r.revoke).token == tok && (r.revoke).is_valid now) = false := by
        simp [RefreshToken.revoke, RefreshToken.is_valid]
      simp only [revokeFoundToken, hr, if_true, List.any_cons, hhead, htail, Bool.or_self]
    · have hcount2 : rs.countP (fun r => r.token == tok) ≤ 1 := by
        rw [List.countP_cons] at hcount
        omega
      simp [revokeFoundToken, hr, ih hcount2]

/-! ### C1 -/

/-- Store for the rotation scenario: one active account owning one valid
refresh token. -/
def dbC1 : Db :=
  { users := [⟨1, "alice@x.com", get_password_hash "pw", "Alice", "employee", true, true, none⟩]
  , refresh_tokens := [⟨1, 1, "old-token", 2000, false⟩]
  , audit_logs := []
  , email_tokens := [] }

/-- C1 counterexample: on a successful rotation the revocation of the
presented token and the insertion of its successor become visible at two
different commits — no single transaction contains both, refuting the "same
transaction boundary" part of the claim.  The presented token is valid at the
start, is revoked as of the first committed state (where the successor does
not yet exist), and the successor appears only at the second committed
state. -/
theorem C1_counterexample :
    tokenValidIn dbC1 "old-token" 1000 = true
    ∧ (refresh_access_token dbC1 (some "old-token") reqEx 1000 "new-token").commits.length = 3
    ∧ rotationAtomic
        (dbC1 :: (refresh_access_token dbC1 (some "old-token") reqEx 1000 "new-token").commits)
        "old-token" "new-token" = false
    ∧ tokenRevokedIn
        ((refresh_access_token dbC1 (some "old-token") reqEx 1000 "new-token").commits.getD 0 dbC1)
        "old-token" = true
    ∧ tokenPresentIn
        ((refresh_access_token dbC1 (some "old-token") reqEx 1000 "new-token").commits.getD 0 dbC1)
        "new-token" = false
    ∧ tokenPresentIn
        ((refresh_access_token dbC1 (some "old-token") reqEx 1000 "new-token").commits.getD 1 dbC1)
        "new-token" = true := by
  refine ⟨by decide, by decide, by decide, by decide, by decide, by decide⟩

/-- C1 amended: the revocation is committed strictly before the successor
token is inserted (two transactions, not one), and therefore the claim's
intended external invariant still holds: in every state the run commits — and
in the initial state — whenever the brand-new token exists, no valid
(non-revoked, non-expired) record of the presented token remains. -/
theorem C1_rotation_never_valid_and_superseded (db : Db) (tok : String) (req : Req)
    (now : Time) (nts : String)
    (hfresh : tokenPresentIn db nts = false)
    (hne : (nts == tok) = false)
    (hcount : db.refresh_tokens.countP (fun r => r.token == tok) ≤ 1) :
    ∀ s ∈ db :: (refresh_access_token db (some tok) req now nts).commits,
      tokenPresentIn s nts = true → tokenValidIn s tok now = false := by
  intro s hs hp
  cases hfind : db.refresh_tokens.find? (fun r => r.token == tok) with
  | none =>
    simp only [refresh_access_token, hfind] at hs
    simp at hs
    subst hs
    rw [hp] at hfresh
    simp at hfresh
  | some tr =>
    cases hval : tr.is_valid now with
    | false =>
      simp only [refresh_access_token, hfind, hval] at hs
      simp at hs
      subst hs
      rw [hp] at hfresh
      simp at hfresh
    | true =>
      cases huser : db.users.find? (fun u => u.id == tr.user_id) with
      | none =>
        simp only [refresh_access_token, hfind, hval] at hs
        simp only [huser] at hs
        simp at hs
        subst hs
        rw [hp] at hfresh
        simp at hfresh
      | some user =>
        cases hact : user.is_active with
        | false =>
          simp only [refresh_access_token, hfind, hval] at hs
          simp only [huser, hact] at hs
          simp at hs
          subst hs
          rw [hp] at hfresh
          simp at hfresh
        | true =>
          simp only [refresh_access_token, hfind, hval] at hs
          simp only [huser, hact] at hs
          simp at hs
          have hkill := revokeFoundToken_kills db.refresh_tokens tok now hcount
          rcases hs with rfl | rfl | rfl | rfl
          · rw [hp] at hfresh
            simp at hfresh
          · unfold tokenPresentIn at hp hfresh
            rw [revokeFoundToken_any_token] at hp
            rw [hp] at hfresh
            simp at hfresh
          · unfold tokenValidIn
            simp [List.any_append, hkill, hne]
          · unfold tokenValidIn log_token_refresh log_auth_event log_event
            simp [List.any_append, hkill, hne]

/-- C1 witness: in the concrete rotation run from `dbC1`, the second committed
state contains the brand-new token, and by the amended theorem no valid record
of the presented token remains there. -/
theorem C1_rotation_never_valid_and_superseded_witness :
    tokenValidIn
      ((refresh_access_token dbC1 (some "old-token") reqEx 1000 "new-token").commits.getD 1
        ⟨[], [], [], []⟩)
      "old-token" 1000 = false :=
  C1_rotation_never_valid_and_superseded dbC1 "old-token" reqEx 1000 "new-token"
    (by decide) (by decide) (by decide)
    ((refresh_access_token dbC1 (some "old-token") reqEx 1000 "new-token").commits.getD 1
      ⟨[], [], [], []⟩)
    (by decide) (by decide)

/-! ### C2 -/

/-- Store for the rejection scenario: an active account with one expired and
one revoked refresh token. -/
def dbC2 : Db :=
  { users := [⟨1, "alice@x.com", get_password_hash "pw", "Alice", "employee", true, true, none⟩]
  , refresh_tokens := [⟨1, 1, "expired-token", 50, false⟩, ⟨2, 1, "revoked-token", 5000, true⟩]
  , audit_logs := []
  , email_tokens := [] }

/-- C2 counterexample: a token absent from the store and an expired token are
both rejected with 401, but with different error messages — "Invalid refresh
token" versus "Refresh token expired or revoked" — so the responses are not
uniform across the claim's three cases. -/
theorem C2_counterexample :
    (refresh_access_token dbC2 (some "no-such-token") reqEx 1000 "n").result
        = RefreshResult.httpError 401 "Invalid refresh token"
    ∧ (refresh_access_token dbC2 (some "expired-token") reqEx 1000 "n").result
        = RefreshResult.httpError 401 "Refresh token expired or revoked"
    ∧ (refresh_access_token dbC2 (some "no-such-token") reqEx 1000 "n").result
        ≠ (refresh_access_token dbC2 (some "expired-token") reqEx 1000 "n").result := by
  refine ⟨by decide, by decide, by decide⟩

/-- C2 amended: every rejection of `/auth/refresh` carries status 401, and
expired and revoked tokens get the identical response ("Refresh token expired
or revoked"); but a missing cookie ("Refresh token not found") and a token
absent from the store ("Invalid refresh token") receive different messages,
so only expired-versus-revoked is indistinguishable. -/
theorem C2_refresh_rejections (db : Db) (req : Req) (now : Time) (nts tok : String) :
    (refresh_access_token db none req now nts).result
        = RefreshResult.httpError 401 "Refresh token not found"
    ∧ (db.refresh_tokens.find? (fun r => r.token == tok) = none →
        (refresh_access_token db (some tok) req now nts).result
          = RefreshResult.httpError 401 "Invalid refresh token")
    ∧ (∀ tr, db.refresh_tokens.find? (fun r => r.token == tok) = some tr →
        tr.is_valid now = false →
        (refresh_access_token db (some tok) req now nts).result
          = RefreshResult.httpError 401 "Refresh token expired or revoked") := by
  refine ⟨rfl, ?_, ?_⟩
  · intro h
    simp only [refresh_access_token, h]
  · intro tr h hv
    simp only [refresh_access_token, h, hv]
    simp

/-- C2 witness: in the concrete store, the unknown-token and expired-token
rejections produced by the amended theorem. -/
theorem C2_refresh_rejections_witness :
    (refresh_access_token dbC2 (some "no-such-token") reqEx 1000 "n2").result
        = RefreshResult.httpError 401 "Invalid refresh token"
    ∧ (refresh_access_token dbC2 (some "expired-token") reqEx 1000 "n2").result
        = RefreshResult.httpError 401 "Refresh token expired or revoked" :=
  ⟨(C2_refresh_rejections dbC2 reqEx 1000 "n2" "no-such-token").2.1 (by decide),
   (C2_refresh_rejections dbC2 reqEx 1000 "n2" "expired-token").2.2
     ⟨1, 1, "expired-token", 50, false⟩ (by decide) (by decide)⟩

/-! ## Email verification consume — src/app/api/auth.py lines 182-202 -/

/-- Outcome of `/auth/verify`: the verified user, a handled HTTP error, or an
uncaught Python exception (HTTP 500). -/
inductive VerifyEmailResult
  | ok (user_id : Nat)
  | httpError (status : Nat) (detail : String)
  | pyError (msg : String)
deriving Repr, DecidableEq

/-- The `/auth/verify` endpoint body (src/app/api/auth.py lines 182-202).
The module imports the `datetime` *class* from the `datetime` module (line 8),
so the expiry comparison on line 190 evaluates
`datetime.now(datetime.timezone.utc)` — an attribute access on the class,
which has no `timezone` attribute.  For every token that is found and not yet
consumed the endpoint therefore raises `AttributeError` (an unhandled 500)
while evaluating the right operand of the comparison, before the expired
branch, the user lookup, or the success path can run; no state is
committed. -/
def verify_email (db : Db) (token : String) : Db × VerifyEmailResult :=
  match db.email_tokens.find? (fun r => r.token == token) with
  | none => (db, VerifyEmailResult.httpError 404 "Invalid token")
  | some record =>
    if record.consumed then (db, VerifyEmailResult.httpError 400 "Token already used")
    else (db, VerifyEmailResult.pyError
      "AttributeError: type object datetime has no attribute timezone")

/-! ### C6 -/

/-- Store for the verification scenario: one expired-but-unconsumed token, one
already-consumed token, and one fresh unconsumed token. -/
def dbC6 : Db :=
  { users := [⟨1, "alice@x.com", get_password_hash "pw", "Alice", "employee", true, false, none⟩]
  , refresh_tokens := []
  , audit_logs := []
  , email_tokens := [⟨1, 1, "expired-unconsumed", 50, false⟩,
                     ⟨2, 1, "already-used", 5000, true⟩,
                     ⟨3, 1, "fresh-unconsumed", 5000, false⟩] }

/-- C6: the first two branches behave as claimed (unknown token → 404,
consumed token → 400 "Token already used"), but every found unconsumed token —
expired or fresh — makes the endpoint raise `AttributeError` instead of
reaching the expiry check or the success path, with no state change.  The
claimed "expired → 400" and "success once, then already used" behaviours are
unreachable. -/
theorem C6_verify_email_crashes :
    (verify_email dbC6 "missing").2 = VerifyEmailResult.httpError 404 "Invalid token"
    ∧ (verify_email dbC6 "already-used").2
        = VerifyEmailResult.httpError 400 "Token already used"
    ∧ (verify_email dbC6 "expired-unconsumed").2
        = VerifyEmailResult.pyError
            "AttributeError: type object datetime has no attribute timezone"
    ∧ (verify_email dbC6 "fresh-unconsumed").2
        = VerifyEmailResult.pyError
            "AttributeError: type object datetime has no attribute timezone"
    ∧ (verify_email dbC6 "expired-unconsumed").1 = dbC6
    ∧ (verify_email dbC6 "fresh-unconsumed").1 = dbC6 := by
  refine ⟨by decide, by decide, by decide, by decide, by decide, by decide⟩

/-! ## Audit listing API — src/app/api/audit.py -/

/-- `GET /audit-logs/` response shape (total computed before pagination). -/
structure AuditLogListResponse where
  total : Nat
  skip : Nat
  limit : Nat
  logs : List AuditLog
deriving Repr, DecidableEq

/-- The filter pipeline of `list_audit_logs` (src/app/api/audit.py lines
63-79): `user_id` is compared when not None, `action` and `target_type` are
exact equality filters applied only when truthy (absent or empty strings are
falsy and skip the filter), and the date bounds are inclusive. -/
def auditMatches (user_id : Option Nat) (action : Option String)
    (target_type : Option String) (start_date end_date : Option Time)
    (e : AuditLog) : Bool :=
  (match user_id with
   | none => true
   | some uid => e.user_id == some uid)
  && (match action with
      | none => true
      | some a => a == "" || e.action == a)
  && (match target_type with
      | none => true
      | some t2 => t2 == "" || e.target_type == some t2)
  && (match start_date with
      | none => true
      | some sd => decide (sd ≤ e.timestamp))
  && (match end_date with
      | none => true
      | some ed => decide (e.timestamp ≤ ed))

/-- The newest-first ordering used by `order_by(desc(AuditLog.timestamp))`. -/
def tsGE (a b : AuditLog) : Prop := b.timestamp ≤ a.timestamp

instance : DecidableRel tsGE := fun a b => Int.decLe b.timestamp a.timestamp

instance : IsTotal AuditLog tsGE := ⟨fun a b => le_total b.timestamp a.timestamp⟩

instance : IsTrans AuditLog tsGE := ⟨fun _ _ _ h1 h2 => le_trans h2 h1⟩

/-- `list_audit_logs` (src/app/api/audit.py lines 26-111): filter, count the
total before pagination, order newest-first, then slice `offset(skip)` and
`limit(limit)`. -/
def list_audit_logs (entries : List AuditLog) (skip limit : Nat)
    (user_id : Option Nat) (action : Option String) (target_type : Option String)
    (start_date end_date : Option Time) : AuditLogListResponse :=
  let filtered := entries.filter (auditMatches user_id action target_type start_date end_date)
  let total := filtered.length
  let sorted := List.insertionSort tsGE filtered
  let logs := (sorted.drop skip).take limit
  ⟨total, skip, limit, logs⟩

/-! ### C8 -/

/-- C8: the returned page is always ordered newest-first by timestamp
(whatever the insertion order of the entries); a non-empty `action` filter
admits only entries whose action equals the filter string exactly; and the
returned total is the number of entries matching the filters, independent of
the `skip`/`limit` page slice. -/
theorem C8_audit_listing (entries : List AuditLog) (skip limit : Nat)
    (user_id : Option Nat) (action : Option String) (target_type : Option String)
    (start_date end_date : Option Time) :
    List.Sorted tsGE
      (list_audit_logs entries skip limit user_id action target_type start_date end_date).logs
    ∧ (list_audit_logs entries skip limit user_id action target_type start_date end_date).total
        = (entries.filter (auditMatches user_id action target_type start_date end_date)).length
    ∧ (∀ skip2 limit2,
        (list_audit_logs entries skip2 limit2 user_id action target_type start_date
          end_date).total
        = (list_audit_logs entries skip limit user_id action target_type start_date
            end_date).total)
    ∧ (∀ a, action = some a → a ≠ "" →
        ∀ e ∈ (list_audit_logs entries skip limit user_id action target_type start_date
            end_date).logs,
          e.action = a) := by
  refine ⟨?_, rfl, fun skip2 limit2 => rfl, ?_⟩
  · have hsorted := List.sorted_insertionSort tsGE
      (entries.filter (auditMatches user_id action target_type start_date end_date))
    exact hsorted.sublist
      (List.Sublist.trans
        (List.take_sublist limit
          ((List.insertionSort tsGE
            (entries.filter (auditMatches user_id action target_type start_date
              end_date))).drop skip))
        (List.drop_sublist skip
          (List.insertionSort tsGE
            (entries.filter (auditMatches user_id action target_type start_date end_date)))))
  · intro a ha hne e he
    have hmem : e ∈ List.insertionSort tsGE
        (entries.filter (auditMatches user_id action target_type start_date end_date)) :=
      (List.Sublist.trans
        (List.take_sublist limit
          ((List.insertionSort tsGE
            (entries.filter (auditMatches user_id action target_type start_date
              end_date))).drop skip))
        (List.drop_sublist skip
          (List.insertionSort tsGE
            (entries.filter (auditMatches user_id action target_type start_date
              end_date))))).mem he
    have hmem2 : e ∈ entries.filter
        (auditMatches user_id action target_type start_date end_date) :=
      (List.mem_insertionSort tsGE).mp hmem
    have hmatch := List.of_mem_filter hmem2
    subst ha
    simp only [auditMatches, Bool.and_eq_true] at hmatch
    have hact := hmatch.1.1.1.2
    have hblank : (a == "") = false := beq_eq_false_iff_ne.mpr hne
    rw [hblank] at hact
    simp only [Bool.false_or] at hact
    exact eq_of_beq hact

/-- Concrete audit entries inserted out of timestamp order. -/
def auditEx : List AuditLog :=
  [⟨1, 100, some 1, "auth.login.success", none, none, []⟩,
   ⟨2, 300, none, "auth.login.failure", none, none, []⟩,
   ⟨3, 200, some 2, "auth.login.success", none, none, []⟩]

/-- C8 witness: on the concrete out-of-order entries with the exact action
filter "auth.login.success", the page is sorted newest-first, the total does
not depend on the page slice, and a concrete returned entry carries the exact
action string. -/
theorem C8_audit_listing_witness :
    List.Sorted tsGE
      (list_audit_logs auditEx 0 50 none (some "auth.login.success") none none none).logs
    ∧ (list_audit_logs auditEx 1 1 none (some "auth.login.success") none none none).total
        = (list_audit_logs auditEx 0 50 none (some "auth.login.success") none none none).total
    ∧ (⟨3, 200, some 2, "auth.login.success", none, none, []⟩ : AuditLog).action
        = "auth.login.success" := by
  have h := C8_audit_listing auditEx 0 50 none (some "auth.login.success") none none none
  exact ⟨h.1, h.2.2.1 1 1,
    h.2.2.2 "auth.login.success" rfl (by decide)
      ⟨3, 200, some 2, "auth.login.success", none, none, []⟩ (by decide)⟩

/-! ### C9 — GET /audit-logs/stats/summary (src/app/api/audit.py lines 173-231) -/

/-- The inclusive date-range filter built from the optional query bounds. -/
def inDateRange (start_date end_date : Option Time) (e : AuditLog) : Bool :=
  (match start_date with
   | none => true
   | some sd => decide (sd ≤ e.timestamp))
  && (match end_date with
      | none => true
      | some ed => decide (e.timestamp ≤ ed))

/-- Response of `GET /audit-logs/stats/summary`. -/
structure AuditStats where
  total_events : Nat
  auth_events : Nat
  admin_operations : Nat
  failed_logins : Nat
  unique_users : Nat
deriving Repr, DecidableEq

/-- `get_audit_stats` (src/app/api/audit.py lines 173-231): `total_events`,
`auth_events` (`LIKE "auth.%"`), `admin_operations` (`LIKE "user.%"`,
`"employee.%"`, `"admin.%"`), and `failed_logins` are all counted on the
date-filtered query, while `unique_users` is a fresh query over the whole
table (`db.query(AuditLog.user_id)`) counting distinct non-null user ids
without the date filters. -/
def get_audit_stats (entries : List AuditLog) (start_date end_date : Option Time) :
    AuditStats :=
  let ranged := entries.filter (inDateRange start_date end_date)
  { total_events := ranged.length
  , auth_events := (ranged.filter (fun e => strStartsWith e.action "auth.")).length
  , admin_operations := (ranged.filter (fun e =>
      strStartsWith e.action "user." || strStartsWith e.action "employee."
        || strStartsWith e.action "admin.")).length
  , failed_logins := (ranged.filter (fun e => e.action == "auth.login.failure")).length
  , unique_users := ((entries.filterMap (fun e => e.user_id)).dedup).length }

/-- Concrete entries for the stats scenario: three events by three distinct
users, only the first inside the queried range. -/
def statsEx : List AuditLog :=
  [⟨1, 150, some 1, "auth.login.success", none, none, []⟩,
   ⟨2, 300, some 2, "auth.login.failure", none, none, []⟩,
   ⟨3, 400, some 3, "user.create", none, none, []⟩]

/-- C9: `unique_users` is computed over the entire audit log — for every
store it coincides with the unfiltered figure whatever `start_date` and
`end_date` are — while the other four counters are restricted to the range;
on the concrete store with range [100, 200] only one event (by one user) is
counted in `total_events`, yet `unique_users` reports all three users. -/
theorem C9_stats_unique_users_ignores_range :
    (∀ (entries : List AuditLog) (sd ed : Option Time),
      (get_audit_stats entries sd ed).unique_users
        = (get_audit_stats entries none none).unique_users)
    ∧ (get_audit_stats statsEx (some 100) (some 200)).total_events = 1
    ∧ (get_audit_stats statsEx (some 100) (some 200)).auth_events = 1
    ∧ (get_audit_stats statsEx (some 100) (some 200)).admin_operations = 0
    ∧ (get_audit_stats statsEx (some 100) (some 200)).failed_logins = 0
    ∧ (get_audit_stats statsEx (some 100) (some 200)).unique_users = 3
    ∧ (((statsEx.filter (inDateRange (some 100) (some 200))).filterMap
        (fun e => e.user_id)).dedup).length = 1 := by
  refine ⟨fun entries sd ed => rfl, by decide, by decide, by decide, by decide, by decide,
    by decide⟩

end VnptTalentHub
